import Mathlib

/-!
Verification of the mental-health screening service
(`app/services/screening_service.py`, class `ScreeningService`).

The Python `Decimal` values are embedded as exact rationals (`ℚ`): with the
default 28-digit `Decimal` context every intermediate value of this program
(at most 14 fractional digits arise from a chain of at most 7 combinations of
2-decimal contributions) is represented exactly, so `Decimal` arithmetic here
coincides with exact rational arithmetic.  Python `dict`s are embedded as
association lists in insertion order; `dict` indexing is `alookup`.
-/

namespace Screening

/-- Association-list lookup, modelling Python `dict` indexing / `in` tests
(first matching key wins; `dict` keys are unique). -/
def alookup {α : Type} : List (String × α) → String → Option α
  | [], _ => none
  | (k, v) :: rest, key => if k = key then some v else alookup rest key

/-- The fixed severity table `SEVERITY_MAPPING`, with TS = 0.2, AS = 0.4,
S = 0.6 and SS = 0.8. -/
def SEVERITY_MAPPING : List (String × ℚ) :=
  [("TS", 2/10), ("AS", 4/10), ("S", 6/10), ("SS", 8/10)]

/-- The valid symptom vocabulary `VALID_SYMPTOM_CODES`, built in the source
by a comprehension over the indices 1..21 and written out here, in the
natural order G01..G21. -/
def VALID_SYMPTOM_CODES : List String :=
  ["G01", "G02", "G03", "G04", "G05", "G06", "G07", "G08", "G09", "G10",
   "G11", "G12", "G13", "G14", "G15", "G16", "G17", "G18", "G19", "G20",
   "G21"]

/-- The expert-weight table `CF_PAKAR`: weight 0.9 for every code G01..G21. -/
def CF_PAKAR : List (String × ℚ) :=
  VALID_SYMPTOM_CODES.map (fun c => (c, 9/10))

/-- The table `DISEASE_SYMPTOMS` of symptom codes relevant to each
condition, in source insertion order. -/
def DISEASE_SYMPTOMS : List (String × List String) :=
  [("Depresi", ["G04", "G05", "G10", "G13", "G16", "G17", "G21"]),
   ("Kecemasan", ["G02", "G03", "G07", "G09", "G15", "G19", "G20"]),
   ("Stres", ["G01", "G06", "G08", "G11", "G12", "G14", "G18"])]

/-- The keys of the severity table: `VALID_SEVERITY_VALUES`. -/
def VALID_SEVERITY_VALUES : List String :=
  SEVERITY_MAPPING.map (fun kv => kv.1)

/-- Validation `_validate_input`: returns `some errormessage` when the
Python `ValueError` would be raised, `none` when validation passes. -/
def validate_input (jawaban : List (String × String)) : Option String :=
  if jawaban.isEmpty then
    some "Data jawaban tidak boleh kosong"
  else if VALID_SYMPTOM_CODES.length < jawaban.length then
    some ("Jumlah gejala melebihi batas maksimal "
      ++ toString VALID_SYMPTOM_CODES.length)
  else
    let invalid_codes :=
      (jawaban.filter (fun kv => decide (kv.1 ∉ VALID_SYMPTOM_CODES))).map
        (fun kv => kv.1)
    let invalid_values :=
      (jawaban.filter (fun kv => decide (kv.2 ∉ VALID_SEVERITY_VALUES))).map
        (fun kv => kv.1 ++ ": " ++ kv.2)
    let errors :=
      (if invalid_codes.isEmpty then [] else
        ["Kode gejala tidak valid: " ++ String.intercalate ", " invalid_codes])
      ++ (if invalid_values.isEmpty then [] else
        ["Nilai severity tidak valid: " ++ String.intercalate ", " invalid_values])
    if errors.isEmpty then none else some (String.intercalate "; " errors)

/-- Severity mapping `_map_severity_values`, looking each answer value up
in the severity table; the `Option` records the `KeyError` a non-table
value would raise. -/
def map_severity_values : List (String × String) → Option (List (String × ℚ))
  | [] => some []
  | kv :: rest =>
    match alookup SEVERITY_MAPPING kv.2 with
    | none => none
    | some v => (map_severity_values rest).map (fun l => (kv.1, v) :: l)

/-- The fold step of `_calculate_cf_total`, line 171:
`cf_total = cf_total + cf * (1.0 - cf_total)` in `Decimal` arithmetic. -/
def combine (a b : ℚ) : ℚ := a + b * (1 - a)

/-- Round a rational to the nearest integer, ties to even: the rounding Python
`round` applies to a float. -/
def roundHalfEven (q : ℚ) : ℤ :=
  if q - ⌊q⌋ < 1/2 then ⌊q⌋
  else if 1/2 < q - ⌊q⌋ then ⌊q⌋ + 1
  else if 2 ∣ ⌊q⌋ then ⌊q⌋ else ⌊q⌋ + 1

/-- Python `round(percentage, 2)` on the (exactly converted) float
percentage.  For every value this program reaches the `float` conversion is
faithful: the exact percentage has at most 12 fractional digits and absolute
value at most 100, so its nearest double is within
`100 * 2 ^ (-53) < 5 * 10 ^ (-13)`, closer than the nearest 2-decimal tie
boundary of any reachable non-tie value, and no reachable value is a tie
(proved below). -/
def round2 (x : ℚ) : ℚ := (roundHalfEven (x * 100) : ℚ) / 100

/-- The inner loop of `_calculate_cf_total`: the ordered contribution list
`cf_combined` for one condition (`cf_user * cf_pakar` for each relevant code
present in the answers); `none` records the `KeyError` of a failed
`CF_PAKAR[gejala]` lookup. -/
def cf_combined_list (cf_user_input : List (String × ℚ)) :
    List String → Option (List ℚ)
  | [] => some []
  | gejala :: rest =>
    match alookup cf_user_input gejala with
    | none => cf_combined_list cf_user_input rest
    | some cf_user =>
      match alookup CF_PAKAR gejala with
      | none => none
      | some cf_pakar =>
        (cf_combined_list cf_user_input rest).map
          (fun l => cf_user * cf_pakar :: l)

/-- The fold of lines 169-171: `cf_total` after folding the tail of the
contribution list into its head (`0` for an empty list, unused there since
the empty case is handled separately). -/
def cf_fold : List ℚ → ℚ
  | [] => 0
  | c :: rest => rest.foldl combine c

/-- Reduce the contribution list of one condition to its percentage score:
`0.0` when empty, else the folded CF times 100, rounded (lines 164-175). -/
def condition_percentage : List ℚ → ℚ
  | [] => 0
  | c :: rest => round2 (rest.foldl combine c * 100)

/-- The outer loop of `_calculate_cf_total`, abstracted over the function
`score` that turns the contribution list of one condition into its recorded
value (`hasil[penyakit]`). -/
def calc_conditions (score : List ℚ → ℚ) (cf_user_input : List (String × ℚ)) :
    List (String × List String) → Option (List (String × ℚ))
  | [] => some []
  | pg :: rest =>
    match cf_combined_list cf_user_input pg.2 with
    | none => none
    | some cfs =>
      (calc_conditions score cf_user_input rest).map
        (fun l => (pg.1, score cfs) :: l)

/-- Aggregation `_calculate_cf_total`: per-condition percentage scores. -/
def calculate_cf_total (cf_user_input : List (String × ℚ)) :
    Option (List (String × ℚ)) :=
  calc_conditions condition_percentage cf_user_input DISEASE_SYMPTOMS

/-- The unrounded combined CF per condition: identical to
`calculate_cf_total` except that the final `* 100` and rounding are not
applied (`0` for an empty contribution list). -/
def calculate_cf_raw (cf_user_input : List (String × ℚ)) :
    Option (List (String × ℚ)) :=
  calc_conditions cf_fold cf_user_input DISEASE_SYMPTOMS

/-- Classification `_kategori_depresi`: depression category from the
percentage score. -/
def kategori_depresi (persentase : ℚ) : String × String :=
  if persentase ≥ 97 then
    ("Sangat Berat",
     "Pikiran untuk bunuh diri, rasa hampa total, tidak mampu melakukan aktivitas dasar. Rekomendasi: Harus segera diperiksakan ke psikiater. Kemungkinan besar membutuhkan obat antidepresan, dan dalam kasus tertentu, harus rawat inap. Hindari akses ke alat yang berbahaya. Tidak boleh dibiarkan sendiri. Diskusikan dengan psikiater kemungkinan mendapatkan psikoterapi dari psikolog")
  else if persentase ≥ 88 then
    ("Berat",
     "Putus asa, tidak berharga, gangguan tidur berat, nafsu makan turun/naik drastis. Rekomendasi: Segera hubungi psikiater untuk pemeriksaan dan kemungkinan pengobatan farmakologis (antidepresan). Keluarga atau teman dekat perlu waspada terhadap tanda bunuh diri atau self-harm. Pertimbangkan break/cuti kuliah bila perlu. Psikoterapi dengan psikolog minimal 1x/minggu")
  else if persentase ≥ 80 then
    ("Sedang",
     "Sedih terus-menerus, gangguan tidur, harga diri rendah, kesulitan berkonsentrasi. Rekomendasi: Identifikasi stresor (akademik, pekerjaan, hubungan) dan cari solusi bersama psikolog. Tidur teratur (6-8 jam), hindari alkohol/narkoba, konsumsi makanan bergizi. Bergabung dengan kelompok dukungan sebaya (peer support) untuk mengurangi rasa kesepian")
  else if persentase ≥ 40 then
    ("Ringan",
     "Perasaan sedih sesekali, kehilangan minat ringan, mudah lelah, kurang semangat. Rekomendasi: Pahami bahwa perasaan sedih adalah bagian dari pengalaman manusia. Lakukan olahraga ringan minimal 3-5 kali/minggu. Buat jadwal harian dan tetapkan target kecil. Bicarakan perasaan dengan teman, keluarga, atau konselor kampus. Latihan pernapasan, meditasi, atau jurnal harian")
  else
    ("Normal", "Tidak menunjukkan gangguan signifikan")

/-- Classification `_kategori_kecemasan`: anxiety category from the
percentage score. -/
def kategori_kecemasan (persentase : ℚ) : String × String :=
  if persentase ≥ 97 then
    ("Sangat Berat",
     "Serangan panik, menghindari situasi sosial. Rekomendasi: Periksa ke psikiater. Kemungkinan perlu kombinasi obat dan terapi psikologis intensif. Perlu dukungan sosial terlatih. Kemungkinan ada serangan panik yang menyebabkan emergency, perlu kunjungan ke IGD")
  else if persentase ≥ 88 then
    ("Berat",
     "Sulit bernapas, takut kehilangan kendali. Rekomendasi: Perlu periksa ke psikiater apakah diperlukan obat anti kecemasan. Psikoterapi dengan psikolog untuk menentukan sumber pemicu kecemasan dan bagaimana mengatasinya")
  else if persentase ≥ 80 then
    ("Sedang",
     "Gemetar, berkeringat, takut akan bahaya. Rekomendasi: Konseling psikologis dengan psikolog. Identifikasi pemicu dan kelola kecemasan. Gunakan teknik grounding. Bentuk support system yang baik. Hindari konsumsi stimulan (kopi, dll)")
  else if persentase ≥ 40 then
    ("Ringan",
     "Gugup, waspada berlebihan. Rekomendasi: Relaksasi, Butterfly hug, Aktivitas fisik (olahraga ringan)")
  else
    ("Normal", "Tidak menunjukkan gangguan signifikan")

/-- Classification `_kategori_stres`: stress category from the percentage
score. -/
def kategori_stres (persentase : ℚ) : String × String :=
  if persentase ≥ 97 then
    ("Sangat Berat",
     "Gejala somatik, burnout, gangguan fungsi sehari-hari. Rekomendasi: Ikuti saran dari psikolog (dan psikiater) untuk pemulihan. Pertimbangkan cuti kuliah (jika perlu). Libatkan orang lain sebagai sumber dukungan. Batasi penggunaan gadget/medsos. Jaga kesehatan fisik dengan memperhatikan asupan makan dan pola tidur sehat")
  else if persentase ≥ 88 then
    ("Berat",
     "Tertekan, sulit berkonsentrasi, mudah lelah. Rekomendasi: Segera konsultasi ke psikolog. Diskusikan dengan psikolog kemungkinan perlunya periksa ke psikiater. Lakukan praktik regulasi emosi. Lakukan penyesuaian waktu dan beban tugas. Batasi penggunaan gadget/medsos")
  else if persentase ≥ 80 then
    ("Sedang",
     "Sulit rileks, mudah marah, mudah kaget. Rekomendasi: Konseling psikologis dengan psikolog. Belajar mengatakan \x27tidak\x27 dan tentukan prioritas. Bentuk kelompok dukungan teman sebaya")
  else if persentase ≥ 40 then
    ("Ringan",
     "Kelola tugas dan waktu. Break sejenak dari rutinitas harian. Mindfulness sederhana. Batasi penggunaan gadget dan medsos")
  else
    ("Normal", "Tidak menunjukkan gangguan signifikan")

/-- Dispatch `_determine_category` on the condition name, with the generic
fallback pair for unrecognized names. -/
def determine_category (penyakit : String) (persentase : ℚ) : String × String :=
  if penyakit = "Depresi" then kategori_depresi persentase
  else if penyakit = "Kecemasan" then kategori_kecemasan persentase
  else if penyakit = "Stres" then kategori_stres persentase
  else ("Tidak Diketahui", "Konsultasi dengan profesional kesehatan")

/-- Formatting `_format_results`: per condition, the `kategori` and
`keterangan` strings built from the percentage (the percentage itself is
dropped from the output). -/
def format_results (hasil_cf : List (String × ℚ)) :
    List (String × String × String) :=
  hasil_cf.map (fun pp =>
    (pp.1, determine_category pp.1 pp.2))

/-- The engine entry point `process_screening`.  `Except.error` carries the
message of the exception Python would raise (`ValueError` for validation,
the wrapped generic `Exception` for anything else). -/
def process_screening (jawaban : List (String × String)) :
    Except String (List (String × String × String)) :=
  match validate_input jawaban with
  | some msg => Except.error msg
  | none =>
    match map_severity_values jawaban with
    | none => Except.error "Terjadi kesalahan sistem dalam memproses screening: KeyError"
    | some cf_user_input =>
      match calculate_cf_total cf_user_input with
      | none => Except.error "Terjadi kesalahan sistem dalam memproses screening: KeyError"
      | some hasil_cf => Except.ok (format_results hasil_cf)

/-- Modelled from the spec: the general signed two-argument CF combine rule
of §4.4 (same-sign positive, same-sign negative, and opposite-sign branches,
with the zero-denominator guard).  Only the unconditional positive-branch
formula appears in the source; this definition follows the wording of the
spec for
comparison with `combine`. -/
def combine_spec (a b : ℚ) : ℚ :=
  if 0 ≤ a ∧ 0 ≤ b then a + b * (1 - a)
  else if a ≤ 0 ∧ b ≤ 0 then a + b * (1 + a)
  else if 1 - min |a| |b| = 0 then 0
  else (a + b) / (1 - min |a| |b|)

/-- Modelled from the spec: rounding "to 2 decimal places (half-up rounding)"
(§4.4 step 5), for the nonnegative percentages this program produces. -/
def round_half_up_2 (x : ℚ) : ℚ := (⌊x * 100 + 1/2⌋ : ℚ) / 100

/-! ### General lemmas about the rounding helpers -/

lemma roundHalfEven_intCast (n : ℤ) : roundHalfEven (n : ℚ) = n := by
  simp [roundHalfEven, Int.fract_intCast]

lemma round2_eq_self (x : ℚ) (n : ℤ) (h : x * 100 = (n : ℚ)) : round2 x = x := by
  have hx : ((n : ℚ)) / 100 = x := by rw [← h]; ring
  rw [round2, h, roundHalfEven_intCast, hx]

lemma floor_le_roundHalfEven (q : ℚ) : ⌊q⌋ ≤ roundHalfEven q := by
  rw [roundHalfEven]
  split_ifs <;> omega

lemma roundHalfEven_le_ceil (q : ℚ) : roundHalfEven q ≤ ⌈q⌉ := by
  have hfl : (⌊q⌋ : ℚ) ≤ q := Int.floor_le q
  have hfc : ⌊q⌋ ≤ ⌈q⌉ := Int.floor_le_ceil q
  have hstep : 1/2 ≤ q - ⌊q⌋ → ⌊q⌋ + 1 ≤ ⌈q⌉ := by
    intro h
    have h1 : (⌊q⌋ : ℚ) < q := by linarith
    have h2 : (⌊q⌋ : ℚ) < (⌈q⌉ : ℚ) := lt_of_lt_of_le h1 (Int.le_ceil q)
    have : ⌊q⌋ < ⌈q⌉ := by exact_mod_cast h2
    omega
  rw [roundHalfEven]
  split_ifs with h1 h2 h3
  · exact hfc
  · exact hstep (by linarith)
  · exact hfc
  · exact hstep (by linarith)

/-- When `q` is not an exact half between two integers, rounding half-to-even
agrees with rounding half-up. -/
lemma roundHalfEven_eq_halfup (q : ℚ) (h : ∀ k : ℤ, q ≠ (k : ℚ) + 1/2) :
    roundHalfEven q = ⌊q + 1/2⌋ := by
  have hfl : (⌊q⌋ : ℚ) ≤ q := Int.floor_le q
  have hlt : q < (⌊q⌋ : ℚ) + 1 := Int.lt_floor_add_one q
  rw [roundHalfEven]
  split_ifs with h1 h2 h3
  · refine (Int.floor_eq_iff.2 ⟨by linarith, by linarith⟩).symm
  · refine (Int.floor_eq_iff.2 ⟨by push_cast; linarith, by push_cast; linarith⟩).symm
  · exact absurd (by linarith : q = (⌊q⌋ : ℚ) + 1/2) (h ⌊q⌋)
  · exact absurd (by linarith : q = (⌊q⌋ : ℚ) + 1/2) (h ⌊q⌋)

/-! ### Algebra of the combine step -/

lemma one_sub_combine (a b : ℚ) : 1 - combine a b = (1 - a) * (1 - b) := by
  rw [combine]; ring

lemma one_sub_foldl_combine (l : List ℚ) :
    ∀ a : ℚ, 1 - List.foldl combine a l = (1 - a) * (l.map (fun c => 1 - c)).prod := by
  induction l with
  | nil => intro a; simp
  | cons c rest ih =>
    intro a
    have step : 1 - List.foldl combine a (c :: rest)
        = (1 - combine a c) * (rest.map (fun c => 1 - c)).prod := by
      simpa using ih (combine a c)
    rw [step, one_sub_combine]
    simp [mul_assoc]

/-! ### Lookup lemmas -/

lemma alookup_mem {α : Type} {l : List (String × α)} {key : String} {v : α}
    (h : alookup l key = some v) : (key, v) ∈ l := by
  induction l with
  | nil => simp [alookup] at h
  | cons kv rest ih =>
    rw [alookup] at h
    by_cases hk : kv.1 = key
    · rw [if_pos hk] at h
      have hkv : kv = (key, v) := by
        cases kv
        simp_all
      rw [hkv]
      exact List.mem_cons_self _ _
    · rw [if_neg hk] at h
      exact List.mem_cons_of_mem _ (ih h)

lemma alookup_map_const {α : Type} (L : List String) (x : α) (g : String) (w : α)
    (h : alookup (L.map (fun c => (c, x))) g = some w) : w = x := by
  induction L with
  | nil => simp [alookup] at h
  | cons c rest ih =>
    rw [List.map_cons, alookup] at h
    by_cases hc : c = g
    · rw [if_pos hc] at h
      exact (Option.some_inj.1 h).symm
    · rw [if_neg hc] at h
      exact ih h

/-! ### The reachable combined CFs are never rounding ties -/

/-- Each per-symptom contribution `v * 0.9` with `v` a severity value has
`(1 - c) * 50` equal to one of the naturals 41, 32, 23, 14 — none of them a
multiple of 5. -/
lemma contribution_factor (v : ℚ) (hv : v ∈ SEVERITY_MAPPING.map Prod.snd) :
    ∃ x : ℕ, ¬ (5 ∣ x) ∧ (1 - v * (9/10)) * 50 = (x : ℚ) := by
  simp only [SEVERITY_MAPPING, List.map_cons, List.map_nil, List.mem_cons,
    List.not_mem_nil, or_false] at hv
  rcases hv with h | h | h | h
  · exact ⟨41, by decide, by rw [h]; norm_num⟩
  · exact ⟨32, by decide, by rw [h]; norm_num⟩
  · exact ⟨23, by decide, by rw [h]; norm_num⟩
  · exact ⟨14, by decide, by rw [h]; norm_num⟩

lemma cf_combined_list_values (cf_user_input : List (String × ℚ))
    (hin : ∀ kv ∈ cf_user_input, kv.2 ∈ SEVERITY_MAPPING.map Prod.snd) :
    ∀ (gl : List String) (cfs : List ℚ),
      cf_combined_list cf_user_input gl = some cfs →
      ∀ c ∈ cfs, ∃ x : ℕ, ¬ (5 ∣ x) ∧ (1 - c) * 50 = (x : ℚ) := by
  intro gl
  induction gl with
  | nil =>
    intro cfs h
    rw [cf_combined_list] at h
    simp_all
  | cons g rest ih =>
    intro cfs h
    rw [cf_combined_list] at h
    cases hu : alookup cf_user_input g with
    | none =>
      rw [hu] at h
      exact ih cfs h
    | some cf_user =>
      rw [hu] at h
      cases hp : alookup CF_PAKAR g with
      | none => rw [hp] at h; cases h
      | some cf_pakar =>
        rw [hp] at h
        cases hrest : cf_combined_list cf_user_input rest with
        | none => rw [hrest] at h; cases h
        | some l =>
          rw [hrest] at h
          simp only [Option.map_some] at h
          obtain rfl : cf_user * cf_pakar :: l = cfs := Option.some_inj.1 h
          intro c hc
          rcases List.mem_cons.1 hc with rfl | hcl
          · have hv : cf_user ∈ SEVERITY_MAPPING.map Prod.snd :=
              hin _ (alookup_mem hu)
            have hpv : cf_pakar = 9/10 := alookup_map_const _ _ _ _ hp
            rw [hpv]
            exact contribution_factor cf_user hv
          · exact ih l hrest c hcl

lemma cf_combined_list_length (cf_user_input : List (String × ℚ)) :
    ∀ (gl : List String) (cfs : List ℚ),
      cf_combined_list cf_user_input gl = some cfs → cfs.length ≤ gl.length := by
  intro gl
  induction gl with
  | nil =>
    intro cfs h
    rw [cf_combined_list] at h
    simp_all
  | cons g rest ih =>
    intro cfs h
    rw [cf_combined_list] at h
    cases hu : alookup cf_user_input g with
    | none =>
      rw [hu] at h
      exact le_trans (ih cfs h) (Nat.le_succ _)
    | some cf_user =>
      rw [hu] at h
      cases hp : alookup CF_PAKAR g with
      | none => rw [hp] at h; cases h
      | some cf_pakar =>
        rw [hp] at h
        cases hrest : cf_combined_list cf_user_input rest with
        | none => rw [hrest] at h; cases h
        | some l =>
          rw [hrest] at h
          simp only [Option.map_some] at h
          obtain rfl : cf_user * cf_pakar :: l = cfs := Option.some_inj.1 h
          simpa using Nat.succ_le_succ (ih l hrest)

lemma prod_pow_eq (cfs : List ℚ)
    (hc : ∀ c ∈ cfs, ∃ x : ℕ, ¬ (5 ∣ x) ∧ (1 - c) * 50 = (x : ℚ)) :
    ∃ P : ℕ, ¬ (5 ∣ P) ∧ (cfs.map (fun c => 1 - c)).prod * 50 ^ cfs.length = (P : ℚ) := by
  induction cfs with
  | nil => exact ⟨1, by decide, by simp⟩
  | cons c rest ih =>
    obtain ⟨x, hx5, hx⟩ := hc c (List.mem_cons_self c rest)
    obtain ⟨P, hP5, hP⟩ := ih (fun d hd => hc d (List.mem_cons_of_mem _ hd))
    refine ⟨x * P, ?_, ?_⟩
    · intro hdvd
      rcases (Nat.Prime.dvd_mul (by norm_num)).1 hdvd with h | h
      · exact hx5 h
      · exact hP5 h
    · have : ((c :: rest).map (fun c => 1 - c)).prod * 50 ^ (c :: rest).length
          = ((1 - c) * 50) * ((rest.map (fun c => 1 - c)).prod * 50 ^ rest.length) := by
        simp [List.length_cons, pow_succ]
        ring
      rw [this, hx, hP]
      push_cast
      ring

/-- No reachable combined CF times `10 ^ 4` is an exact integer-and-a-half:
the rounding the code performs therefore never faces a tie. -/
lemma fold_no_tie (q : ℚ) (P m : ℕ) (hm1 : 1 ≤ m) (hm7 : m ≤ 7)
    (hP : ¬ (5 ∣ P)) (hq : (1 - q) * 50 ^ m = (P : ℚ)) (k : ℤ) :
    q * 100 * 100 ≠ (k : ℚ) + 1/2 := by
  intro heq
  have h1 : q * 50 ^ m = 50 ^ m - (P : ℚ) := by linear_combination -hq
  have h2 : q * 100 * 100 * (2 * 50 ^ m) = ((k : ℚ) + 1/2) * (2 * 50 ^ m) := by
    rw [heq]
  have h3 : (20000 : ℚ) * (50 ^ m - (P : ℚ)) = 2 * k * 50 ^ m + 50 ^ m := by
    linear_combination h2 - 20000 * h1
  have h4 : (20000 : ℤ) * (50 ^ m - (P : ℤ)) = 2 * k * 50 ^ m + 50 ^ m := by
    exact_mod_cast h3
  interval_cases m <;> omega

/-- On every contribution list the program can build, the rounding the code performs on
the folded CF agrees with spec half-up rounding. -/
lemma condition_round_half_up (cfs : List ℚ) (hlen : cfs.length ≤ 7)
    (hc : ∀ c ∈ cfs, ∃ x : ℕ, ¬ (5 ∣ x) ∧ (1 - c) * 50 = (x : ℚ)) :
    condition_percentage cfs = round_half_up_2 (cf_fold cfs * 100) := by
  cases cfs with
  | nil =>
    rw [condition_percentage, cf_fold, round_half_up_2]
    norm_num
  | cons c rest =>
    rw [condition_percentage, cf_fold, round_half_up_2, round2]
    set q := List.foldl combine c rest with hqdef
    obtain ⟨P, hP5, hP⟩ := prod_pow_eq (c :: rest) hc
    have hform : (1 - q) * 50 ^ (c :: rest).length = (P : ℚ) := by
      rw [hqdef, one_sub_foldl_combine]
      calc (1 - c) * ((rest.map (fun c => 1 - c)).prod) * 50 ^ (c :: rest).length
          = ((c :: rest).map (fun c => 1 - c)).prod * 50 ^ (c :: rest).length := by
            simp [List.map_cons]
        _ = (P : ℚ) := hP
    have hnotie : ∀ k : ℤ, q * 100 * 100 ≠ (k : ℚ) + 1/2 :=
      fold_no_tie q P (c :: rest).length (by simp) (by simpa using hlen) hP5 hform
    rw [roundHalfEven_eq_halfup _ (by
      intro k
      simpa [mul_assoc, mul_comm] using hnotie k)]

lemma calc_conditions_round (cf_user_input : List (String × ℚ))
    (hin : ∀ kv ∈ cf_user_input, kv.2 ∈ SEVERITY_MAPPING.map Prod.snd) :
    ∀ dl : List (String × List String), (∀ pg ∈ dl, pg.2.length ≤ 7) →
      calc_conditions condition_percentage cf_user_input dl =
        (calc_conditions cf_fold cf_user_input dl).map
          (List.map (fun pr => (pr.1, round_half_up_2 (pr.2 * 100)))) := by
  intro dl
  induction dl with
  | nil => intro _; simp [calc_conditions]
  | cons pg rest ih =>
    intro hlen
    rw [calc_conditions, calc_conditions]
    cases hcfs : cf_combined_list cf_user_input pg.2 with
    | none => simp
    | some cfs =>
      rw [ih (fun p hp => hlen p (List.mem_cons_of_mem _ hp))]
      cases hrest : calc_conditions cf_fold cf_user_input rest with
      | none => simp
      | some l =>
        simp only [Option.map_some, List.map_cons]
        have hhead : condition_percentage cfs = round_half_up_2 (cf_fold cfs * 100) :=
          condition_round_half_up cfs
            (le_trans (cf_combined_list_length _ _ _ hcfs)
              (hlen pg (List.mem_cons_self _ _)))
            (cf_combined_list_values _ hin _ _ hcfs)
        rw [hhead]
        simp

/-! ### Totality of the aggregation steps -/

lemma cf_combined_list_isSome (cf_user_input : List (String × ℚ)) (gl : List String)
    (h : ∀ g ∈ gl, (alookup CF_PAKAR g).isSome) :
    ∃ cfs, cf_combined_list cf_user_input gl = some cfs := by
  induction gl with
  | nil => exact ⟨[], rfl⟩
  | cons g rest ih =>
    obtain ⟨cfs, hcfs⟩ := ih (fun x hx => h x (List.mem_cons_of_mem _ hx))
    rw [cf_combined_list]
    cases hu : alookup cf_user_input g with
    | none => exact ⟨cfs, hcfs⟩
    | some cf_user =>
      cases hp : alookup CF_PAKAR g with
      | none =>
        have := h g (List.mem_cons_self _ _)
        rw [hp] at this
        cases this
      | some cf_pakar =>
        exact ⟨cf_user * cf_pakar :: cfs, by rw [hcfs]; rfl⟩

/-- Aggregation always produces a result for exactly the three fixed
conditions, in order. -/
lemma calculate_cf_total_form (cf_user_input : List (String × ℚ)) :
    ∃ pD pK pS, calculate_cf_total cf_user_input =
      some [("Depresi", pD), ("Kecemasan", pK), ("Stres", pS)] := by
  obtain ⟨cD, hD⟩ := cf_combined_list_isSome cf_user_input
    ["G04", "G05", "G10", "G13", "G16", "G17", "G21"] (by decide)
  obtain ⟨cK, hK⟩ := cf_combined_list_isSome cf_user_input
    ["G02", "G03", "G07", "G09", "G15", "G19", "G20"] (by decide)
  obtain ⟨cS, hS⟩ := cf_combined_list_isSome cf_user_input
    ["G01", "G06", "G08", "G11", "G12", "G14", "G18"] (by decide)
  refine ⟨condition_percentage cD, condition_percentage cK, condition_percentage cS, ?_⟩
  rw [calculate_cf_total, DISEASE_SYMPTOMS]
  rw [calc_conditions, hD, calc_conditions, hK, calc_conditions, hS, calc_conditions]
  rfl

lemma map_severity_values_isSome (jawaban : List (String × String))
    (h : ∀ kv ∈ jawaban, kv.2 ∈ VALID_SEVERITY_VALUES) :
    ∃ l, map_severity_values jawaban = some l := by
  induction jawaban with
  | nil => exact ⟨[], rfl⟩
  | cons kv rest ih =>
    obtain ⟨l, hl⟩ := ih (fun x hx => h x (List.mem_cons_of_mem _ hx))
    have hv : kv.2 ∈ VALID_SEVERITY_VALUES := h kv (List.mem_cons_self _ _)
    have hsome : ∃ v, alookup SEVERITY_MAPPING kv.2 = some v := by
      rw [VALID_SEVERITY_VALUES, SEVERITY_MAPPING] at hv
      simp only [List.map_cons, List.map_nil, List.mem_cons, List.not_mem_nil,
        or_false] at hv
      rcases hv with h | h | h | h <;>
        · rw [h]
          exact ⟨_, rfl⟩
    obtain ⟨v, hvv⟩ := hsome
    rw [map_severity_values, hvv, hl]
    exact ⟨(kv.1, v) :: l, rfl⟩

/-! ### Validation lemmas -/

lemma exists_mem_of_filter_ne_nil {α : Type} {p : α → Bool} {l : List α}
    (h : l.filter p ≠ []) : ∃ x ∈ l, p x = true := by
  by_contra h2
  push_neg at h2
  exact h (List.filter_eq_nil_iff.2 (by simpa using h2))

lemma validate_input_none_iff (jawaban : List (String × String)) :
    validate_input jawaban = none ↔
      jawaban ≠ [] ∧ jawaban.length ≤ VALID_SYMPTOM_CODES.length ∧
        ∀ kv ∈ jawaban, kv.1 ∈ VALID_SYMPTOM_CODES ∧ kv.2 ∈ VALID_SEVERITY_VALUES := by
  rw [validate_input]
  by_cases h1 : jawaban.isEmpty
  · rw [if_pos h1]
    simp only [List.isEmpty_iff] at h1
    simp [h1]
  · rw [if_neg h1]
    simp only [List.isEmpty_iff] at h1
    by_cases h2 : VALID_SYMPTOM_CODES.length < jawaban.length
    · rw [if_pos h2]
      simp [h1, not_le.2 h2]
    · rw [if_neg h2]
      simp only [h1, ne_eq, not_false_iff, true_and, not_lt.1 h2]
      by_cases hc : (jawaban.filter fun kv => decide (kv.1 ∉ VALID_SYMPTOM_CODES)) = []
      · by_cases hv : (jawaban.filter fun kv => decide (kv.2 ∉ VALID_SEVERITY_VALUES)) = []
        · have hgoal : ∀ kv ∈ jawaban,
              kv.1 ∈ VALID_SYMPTOM_CODES ∧ kv.2 ∈ VALID_SEVERITY_VALUES := by
            intro kv hkv
            have hc2 := List.filter_eq_nil_iff.1 hc kv hkv
            have hv2 := List.filter_eq_nil_iff.1 hv kv hkv
            exact ⟨by simpa using hc2, by simpa using hv2⟩
          simp [hc, hv, hgoal]
          exact ⟨fun h a b hab => ⟨h.1 a b hab, h.2 a b hab⟩,
            fun h => ⟨fun a b hab => (h a b hab).1, fun a b hab => (h a b hab).2⟩⟩
        · have hvb : ((jawaban.filter fun kv => decide (kv.2 ∉ VALID_SEVERITY_VALUES)).map
              (fun kv => kv.1 ++ ": " ++ kv.2)).isEmpty = false := by
            simpa [List.isEmpty_iff, List.map_eq_nil_iff] using hv
          obtain ⟨kv, hkv, hbad⟩ := exists_mem_of_filter_ne_nil hv
          simp only [decide_eq_true_eq] at hbad
          simp only [hc, List.map_nil, List.isEmpty_nil, if_true, hvb,
            Bool.false_eq_true, if_false, List.nil_append, List.isEmpty_cons,
            reduceCtorEq, false_iff, not_forall]
          exact ⟨kv, hkv, fun hconj => hbad hconj.2⟩
      · have hcb : ((jawaban.filter fun kv => decide (kv.1 ∉ VALID_SYMPTOM_CODES)).map
            (fun kv => kv.1)).isEmpty = false := by
          simpa [List.isEmpty_iff, List.map_eq_nil_iff] using hc
        obtain ⟨kv, hkv, hbad⟩ := exists_mem_of_filter_ne_nil hc
        simp only [decide_eq_true_eq] at hbad
        simp only [hcb, Bool.false_eq_true, if_false, List.cons_append,
          List.isEmpty_cons, reduceCtorEq, false_iff, not_forall]
        exact ⟨kv, hkv, fun hconj => hbad hconj.1⟩

/-! ### Bounds for the combine step -/

lemma combine_le_one {a b : ℚ} (ha : a ≤ 1) (hb : b ≤ 1) : combine a b ≤ 1 := by
  have h := mul_nonneg (by linarith : (0:ℚ) ≤ 1 - a) (by linarith : (0:ℚ) ≤ 1 - b)
  have hc := one_sub_combine a b
  linarith

lemma left_le_combine {a b : ℚ} (ha : a ≤ 1) (hb : 0 ≤ b) : a ≤ combine a b := by
  have h := mul_nonneg hb (by linarith : (0:ℚ) ≤ 1 - a)
  rw [combine]
  linarith

lemma right_le_combine {a b : ℚ} (ha : 0 ≤ a) (hb : b ≤ 1) : b ≤ combine a b := by
  have h := mul_nonneg ha (by linarith : (0:ℚ) ≤ 1 - b)
  rw [combine]
  nlinarith

lemma foldl_combine_bounds (l : List ℚ) :
    ∀ a : ℚ, 0 ≤ a → a ≤ 1 → (∀ c ∈ l, 0 ≤ c ∧ c ≤ 1) →
      a ≤ List.foldl combine a l ∧ List.foldl combine a l ≤ 1 := by
  induction l with
  | nil => intro a _ ha1 _; exact ⟨le_refl a, ha1⟩
  | cons c rest ih =>
    intro a ha ha1 hl
    obtain ⟨hc0, hc1⟩ := hl c (List.mem_cons_self _ _)
    have hstep1 : a ≤ combine a c := left_le_combine ha1 hc0
    have hstep0 : 0 ≤ combine a c := le_trans ha hstep1
    have hstepu : combine a c ≤ 1 := combine_le_one ha1 hc1
    have := ih (combine a c) hstep0 hstepu (fun d hd => hl d (List.mem_cons_of_mem _ hd))
    exact ⟨le_trans hstep1 this.1, this.2⟩

lemma round2_bounds (x : ℚ) (h0 : 0 ≤ x) (h1 : x ≤ 100) :
    0 ≤ round2 x ∧ round2 x ≤ 100 := by
  have hfl : (0 : ℤ) ≤ ⌊x * 100⌋ := Int.floor_nonneg.2 (by positivity)
  have hlow : (0 : ℤ) ≤ roundHalfEven (x * 100) :=
    le_trans hfl (floor_le_roundHalfEven _)
  have hceil : ⌈x * 100⌉ ≤ (10000 : ℤ) := Int.ceil_le.2 (by push_cast; linarith)
  have hhigh : roundHalfEven (x * 100) ≤ (10000 : ℤ) :=
    le_trans (roundHalfEven_le_ceil _) hceil
  constructor
  · rw [round2]
    positivity
  · rw [round2]
    rw [div_le_iff₀ (by norm_num : (0:ℚ) < 100)]
    calc ((roundHalfEven (x * 100) : ℚ)) ≤ (10000 : ℚ) := by exact_mod_cast hhigh
      _ = 100 * 100 := by norm_num

/-! ### Claim theorems -/

/-- C8: the CF combine rule satisfies the identity law at zero: for every
`a` in `[-1, 1]`, `combine a 0 = a`. -/
theorem combine_zero_right_identity (a : ℚ) (_h1 : -1 ≤ a) (_h2 : a ≤ 1) :
    combine a 0 = a := by
  rw [combine]
  ring

/-- Witness for C8 at `a = 1/2`. -/
theorem combine_zero_right_identity_witness :
    -1 ≤ (1/2 : ℚ) ∧ (1/2 : ℚ) ≤ 1 ∧ combine (1/2) 0 = 1/2 :=
  ⟨by norm_num, by norm_num,
    combine_zero_right_identity (1/2) (by norm_num) (by norm_num)⟩

/-- C1 counterexample: the combine step of the code applies `a + b * (1 - a)`
even when both arguments are negative, where the claim requires
`a + b * (1 + a)`: at `a = b = -1/2` the code yields `-5/4` while the
claimed signed rule yields `-3/4`. -/
theorem combine_negative_pair_counterexample :
    combine (-1/2) (-1/2) = -5/4 ∧
    combine_spec (-1/2) (-1/2) = (-1/2) + (-1/2) * (1 + (-1/2)) ∧
    combine_spec (-1/2) (-1/2) = -3/4 ∧
    combine (-1/2) (-1/2) ≠ (-1/2) + (-1/2) * (1 + (-1/2)) := by
  refine ⟨by rw [combine]; norm_num, ?_, ?_, by rw [combine]; norm_num⟩
  · rw [combine_spec]
    norm_num
  · rw [combine_spec]
    norm_num

/-- C1 (amended): the combine step of the aggregation applies the single
formula `a + b * (1 - a)` for all signs; it agrees with the signed rule of
the spec
whenever both arguments are non-negative. -/
theorem combine_unconditional_formula (a b : ℚ) :
    combine a b = a + b * (1 - a) ∧
    (0 ≤ a → 0 ≤ b → combine a b = combine_spec a b) := by
  refine ⟨rfl, fun ha hb => ?_⟩
  rw [combine, combine_spec, if_pos ⟨ha, hb⟩]

/-- Witness for C1 (amended) at `a = 1/2`, `b = 1/3`. -/
theorem combine_unconditional_formula_witness :
    combine (1/2) (1/3) = 1/2 + 1/3 * (1 - 1/2) ∧
    combine (1/2) (1/3) = combine_spec (1/2) (1/3) :=
  ⟨(combine_unconditional_formula (1/2) (1/3)).1,
    (combine_unconditional_formula (1/2) (1/3)).2 (by norm_num) (by norm_num)⟩

/-- C10: on `[0, 1]` the fold step `a + b * (1 - a)` returns a value between
`max a b` and `1`; consequently the accumulated CF never decreases as
contributions are folded in, and the percentage of every condition lies in
`[0, 100]`. -/
theorem combine_fold_bounds :
    (∀ a b : ℚ, 0 ≤ a → a ≤ 1 → 0 ≤ b → b ≤ 1 →
      max a b ≤ combine a b ∧ combine a b ≤ 1) ∧
    (∀ (a : ℚ) (l : List ℚ), 0 ≤ a → a ≤ 1 → (∀ c ∈ l, 0 ≤ c ∧ c ≤ 1) →
      a ≤ List.foldl combine a l ∧ 0 ≤ List.foldl combine a l ∧
        List.foldl combine a l ≤ 1) ∧
    (∀ cfs : List ℚ, (∀ c ∈ cfs, 0 ≤ c ∧ c ≤ 1) →
      0 ≤ condition_percentage cfs ∧ condition_percentage cfs ≤ 100) := by
  refine ⟨?_, ?_, ?_⟩
  · intro a b ha ha1 hb hb1
    exact ⟨max_le (left_le_combine ha1 hb) (right_le_combine ha hb1),
      combine_le_one ha1 hb1⟩
  · intro a l ha ha1 hl
    have h := foldl_combine_bounds l a ha ha1 hl
    exact ⟨h.1, le_trans ha h.1, h.2⟩
  · intro cfs hcfs
    cases cfs with
    | nil =>
      rw [condition_percentage]
      norm_num
    | cons c rest =>
      obtain ⟨hc0, hc1⟩ := hcfs c (List.mem_cons_self _ _)
      have h := foldl_combine_bounds rest c hc0 hc1
        (fun d hd => hcfs d (List.mem_cons_of_mem _ hd))
      have hq0 : 0 ≤ List.foldl combine c rest := le_trans hc0 h.1
      rw [condition_percentage]
      exact round2_bounds _ (by positivity) (by nlinarith [h.2])

/-- Witness for C10 at `a = 1/2`, `b = 1/3`, `l = [1/3]`, `cfs = [1/2]`. -/
theorem combine_fold_bounds_witness :
    (max (1/2 : ℚ) (1/3) ≤ combine (1/2) (1/3) ∧ combine (1/2) (1/3) ≤ 1) ∧
    ((1/2 : ℚ) ≤ List.foldl combine (1/2) [1/3] ∧
      0 ≤ List.foldl combine (1/2) [1/3] ∧ List.foldl combine (1/2) [1/3] ≤ 1) ∧
    (0 ≤ condition_percentage [1/2] ∧ condition_percentage [1/2] ≤ 100) :=
  ⟨combine_fold_bounds.1 (1/2) (1/3) (by norm_num) (by norm_num) (by norm_num)
      (by norm_num),
    combine_fold_bounds.2.1 (1/2) [1/3] (by norm_num) (by norm_num)
      (by intro c hc; rw [List.mem_singleton] at hc; rw [hc]; norm_num),
    combine_fold_bounds.2.2 [1/2]
      (by intro c hc; rw [List.mem_singleton] at hc; rw [hc]; norm_num)⟩

/-- C6: for every condition, every percentage in `[0, 100]` falls in exactly
one of the five bands (thresholds 97, 88, 80, 40, with Normal below 40),
evaluated top-down, and every boundary value resolves to the higher band. -/
theorem classification_bands_partition (p : ℚ) (_h0 : 0 ≤ p) (_h100 : p ≤ 100) :
    (97 ≤ p →
      (kategori_depresi p).1 = "Sangat Berat" ∧
      (kategori_kecemasan p).1 = "Sangat Berat" ∧
      (kategori_stres p).1 = "Sangat Berat") ∧
    (88 ≤ p → p < 97 →
      (kategori_depresi p).1 = "Berat" ∧
      (kategori_kecemasan p).1 = "Berat" ∧
      (kategori_stres p).1 = "Berat") ∧
    (80 ≤ p → p < 88 →
      (kategori_depresi p).1 = "Sedang" ∧
      (kategori_kecemasan p).1 = "Sedang" ∧
      (kategori_stres p).1 = "Sedang") ∧
    (40 ≤ p → p < 80 →
      (kategori_depresi p).1 = "Ringan" ∧
      (kategori_kecemasan p).1 = "Ringan" ∧
      (kategori_stres p).1 = "Ringan") ∧
    (p < 40 →
      (kategori_depresi p).1 = "Normal" ∧
      (kategori_kecemasan p).1 = "Normal" ∧
      (kategori_stres p).1 = "Normal") := by
  refine ⟨?_, ?_, ?_, ?_, ?_⟩
  · intro h
    simp [kategori_depresi, kategori_kecemasan, kategori_stres, ge_iff_le, h]
  · intro h1 h2
    have n97 : ¬ (97 : ℚ) ≤ p := by linarith
    simp [kategori_depresi, kategori_kecemasan, kategori_stres, ge_iff_le, n97, h1]
  · intro h1 h2
    have n97 : ¬ (97 : ℚ) ≤ p := by linarith
    have n88 : ¬ (88 : ℚ) ≤ p := by linarith
    simp [kategori_depresi, kategori_kecemasan, kategori_stres, ge_iff_le, n97, n88, h1]
  · intro h1 h2
    have n97 : ¬ (97 : ℚ) ≤ p := by linarith
    have n88 : ¬ (88 : ℚ) ≤ p := by linarith
    have n80 : ¬ (80 : ℚ) ≤ p := by linarith
    simp [kategori_depresi, kategori_kecemasan, kategori_stres, ge_iff_le,
      n97, n88, n80, h1]
  · intro h
    have n97 : ¬ (97 : ℚ) ≤ p := by linarith
    have n88 : ¬ (88 : ℚ) ≤ p := by linarith
    have n80 : ¬ (80 : ℚ) ≤ p := by linarith
    have n40 : ¬ (40 : ℚ) ≤ p := by linarith
    simp [kategori_depresi, kategori_kecemasan, kategori_stres, ge_iff_le,
      n97, n88, n80, n40]

/-- Witness for C6 at the boundary `p = 80`: exactly 80 maps to "Sedang". -/
theorem classification_bands_partition_witness :
    (kategori_depresi 80).1 = "Sedang" ∧
    (kategori_kecemasan 80).1 = "Sedang" ∧
    (kategori_stres 80).1 = "Sedang" :=
  (classification_bands_partition 80 (by norm_num) (by norm_num)).2.2.1
    (by norm_num) (by norm_num)

/-- Evaluation of `String.intercalate` on a two-element list. -/
lemma intercalate_pair (s a b : String) : String.intercalate s [a, b] = a ++ s ++ b := by
  simp [String.intercalate, String.intercalate.go]

lemma intercalate_single (s a : String) : String.intercalate s [a] = a := by
  simp [String.intercalate, String.intercalate.go]

/-- C4: validation fails exactly when the answer set is empty, oversized
(more than 21 entries), contains an invalid code, or contains an invalid
severity value; both checks run to completion: when both kinds of offenders
are present the message contains the comma-joined enumeration of every
invalid code and of every invalid (code, value) pair, joined with `"; "`,
and when only one kind is present only that message appears. -/
theorem validate_input_characterization (jawaban : List (String × String)) :
    (validate_input jawaban = none ↔
      jawaban ≠ [] ∧ jawaban.length ≤ 21 ∧
        ∀ kv ∈ jawaban, kv.1 ∈ VALID_SYMPTOM_CODES ∧ kv.2 ∈ VALID_SEVERITY_VALUES) ∧
    (jawaban ≠ [] → jawaban.length ≤ 21 →
      (∃ kv ∈ jawaban, kv.1 ∉ VALID_SYMPTOM_CODES) →
      (∃ kv ∈ jawaban, kv.2 ∉ VALID_SEVERITY_VALUES) →
      validate_input jawaban = some
        (("Kode gejala tidak valid: " ++ String.intercalate ", "
            ((jawaban.filter (fun kv => decide (kv.1 ∉ VALID_SYMPTOM_CODES))).map
              (fun kv => kv.1)))
          ++ "; "
          ++ ("Nilai severity tidak valid: " ++ String.intercalate ", "
            ((jawaban.filter (fun kv => decide (kv.2 ∉ VALID_SEVERITY_VALUES))).map
              (fun kv => kv.1 ++ ": " ++ kv.2))))) ∧
    (jawaban ≠ [] → jawaban.length ≤ 21 →
      (∃ kv ∈ jawaban, kv.1 ∉ VALID_SYMPTOM_CODES) →
      (∀ kv ∈ jawaban, kv.2 ∈ VALID_SEVERITY_VALUES) →
      validate_input jawaban = some
        ("Kode gejala tidak valid: " ++ String.intercalate ", "
          ((jawaban.filter (fun kv => decide (kv.1 ∉ VALID_SYMPTOM_CODES))).map
            (fun kv => kv.1)))) ∧
    (jawaban ≠ [] → jawaban.length ≤ 21 →
      (∀ kv ∈ jawaban, kv.1 ∈ VALID_SYMPTOM_CODES) →
      (∃ kv ∈ jawaban, kv.2 ∉ VALID_SEVERITY_VALUES) →
      validate_input jawaban = some
        ("Nilai severity tidak valid: " ++ String.intercalate ", "
          ((jawaban.filter (fun kv => decide (kv.2 ∉ VALID_SEVERITY_VALUES))).map
            (fun kv => kv.1 ++ ": " ++ kv.2)))) := by
  have hlen21 : VALID_SYMPTOM_CODES.length = 21 := rfl
  refine ⟨by rw [validate_input_none_iff, hlen21], ?_, ?_, ?_⟩
  · intro h1 h2 hec hev
    rw [validate_input]
    rw [if_neg (by simpa [List.isEmpty_iff] using h1)]
    rw [if_neg (by omega)]
    have hfc : (jawaban.filter (fun kv => decide (kv.1 ∉ VALID_SYMPTOM_CODES))) ≠ [] := by
      obtain ⟨kv, hkv, hbad⟩ := hec
      intro hnil
      exact hbad (by simpa using List.filter_eq_nil_iff.1 hnil kv hkv)
    have hfv : (jawaban.filter (fun kv => decide (kv.2 ∉ VALID_SEVERITY_VALUES))) ≠ [] := by
      obtain ⟨kv, hkv, hbad⟩ := hev
      intro hnil
      exact hbad (by simpa using List.filter_eq_nil_iff.1 hnil kv hkv)
    have hA : ((jawaban.filter (fun kv => decide (kv.1 ∉ VALID_SYMPTOM_CODES))).map
        (fun kv => kv.1)).isEmpty = false := by
      simpa [List.isEmpty_iff, List.map_eq_nil_iff] using hfc
    have hB : ((jawaban.filter (fun kv => decide (kv.2 ∉ VALID_SEVERITY_VALUES))).map
        (fun kv => kv.1 ++ ": " ++ kv.2)).isEmpty = false := by
      simpa [List.isEmpty_iff, List.map_eq_nil_iff] using hfv
    simp only [hA, hB, Bool.false_eq_true, if_false, List.singleton_append,
      List.isEmpty_cons, intercalate_pair]
  · intro h1 h2 hec hval
    rw [validate_input]
    rw [if_neg (by simpa [List.isEmpty_iff] using h1)]
    rw [if_neg (by omega)]
    have hfc : (jawaban.filter (fun kv => decide (kv.1 ∉ VALID_SYMPTOM_CODES))) ≠ [] := by
      obtain ⟨kv, hkv, hbad⟩ := hec
      intro hnil
      exact hbad (by simpa using List.filter_eq_nil_iff.1 hnil kv hkv)
    have hfv : (jawaban.filter (fun kv => decide (kv.2 ∉ VALID_SEVERITY_VALUES))) = [] :=
      List.filter_eq_nil_iff.2 (fun kv hkv => by simp [hval kv hkv])
    have hA : ((jawaban.filter (fun kv => decide (kv.1 ∉ VALID_SYMPTOM_CODES))).map
        (fun kv => kv.1)).isEmpty = false := by
      simpa [List.isEmpty_iff, List.map_eq_nil_iff] using hfc
    simp only [hA, hfv, Bool.false_eq_true, if_false, List.map_nil,
      List.isEmpty_nil, if_true, List.append_nil, List.isEmpty_cons,
      intercalate_single]
  · intro h1 h2 hcval hev
    rw [validate_input]
    rw [if_neg (by simpa [List.isEmpty_iff] using h1)]
    rw [if_neg (by omega)]
    have hfc : (jawaban.filter (fun kv => decide (kv.1 ∉ VALID_SYMPTOM_CODES))) = [] :=
      List.filter_eq_nil_iff.2 (fun kv hkv => by simp [hcval kv hkv])
    have hfv : (jawaban.filter (fun kv => decide (kv.2 ∉ VALID_SEVERITY_VALUES))) ≠ [] := by
      obtain ⟨kv, hkv, hbad⟩ := hev
      intro hnil
      exact hbad (by simpa using List.filter_eq_nil_iff.1 hnil kv hkv)
    have hB : ((jawaban.filter (fun kv => decide (kv.2 ∉ VALID_SEVERITY_VALUES))).map
        (fun kv => kv.1 ++ ": " ++ kv.2)).isEmpty = false := by
      simpa [List.isEmpty_iff, List.map_eq_nil_iff] using hfv
    simp only [hfc, hB, Bool.false_eq_true, if_false, List.map_nil,
      List.isEmpty_nil, if_true, List.nil_append, List.isEmpty_cons,
      intercalate_single]

/-- Witness for C4: an answer set with two invalid codes and two invalid
values produces the single combined, fully enumerated message. -/
theorem validate_input_characterization_witness :
    validate_input [("G01", "SS"), ("XX", "TS"), ("G02", "ZZ"), ("YY", "QQ")] =
      some ("Kode gejala tidak valid: XX, YY; "
        ++ "Nilai severity tidak valid: G02: ZZ, YY: QQ") := by
  have h := (validate_input_characterization
    [("G01", "SS"), ("XX", "TS"), ("G02", "ZZ"), ("YY", "QQ")]).2.1
    (by decide) (by decide)
    ⟨("XX", "TS"), by decide, by decide⟩
    ⟨("G02", "ZZ"), by decide, by decide⟩
  rw [h]
  decide

/-- C9: on every answer set that passes validation, severity mapping,
aggregation and classification all succeed: the pipeline reaches
`Except.ok` with the formatted results and no step signals an error. -/
theorem valid_input_processing_total (jawaban : List (String × String))
    (h : validate_input jawaban = none) :
    ∃ cf_user_input, map_severity_values jawaban = some cf_user_input ∧
      ∃ hasil_cf, calculate_cf_total cf_user_input = some hasil_cf ∧
        process_screening jawaban = Except.ok (format_results hasil_cf) := by
  have hvals : ∀ kv ∈ jawaban, kv.2 ∈ VALID_SEVERITY_VALUES :=
    fun kv hkv => (((validate_input_none_iff jawaban).1 h).2.2 kv hkv).2
  obtain ⟨inp, hinp⟩ := map_severity_values_isSome jawaban hvals
  obtain ⟨pD, pK, pS, hcalc⟩ := calculate_cf_total_form inp
  refine ⟨inp, hinp, [("Depresi", pD), ("Kecemasan", pK), ("Stres", pS)], hcalc, ?_⟩
  rw [process_screening, h, hinp]
  dsimp only
  rw [hcalc]

/-- Witness for C9 at the valid answer set `{G01: SS}`. -/
theorem valid_input_processing_total_witness :
    validate_input [("G01", "SS")] = none ∧
    ∃ cf_user_input, map_severity_values [("G01", "SS")] = some cf_user_input ∧
      ∃ hasil_cf, calculate_cf_total cf_user_input = some hasil_cf ∧
        process_screening [("G01", "SS")] = Except.ok (format_results hasil_cf) :=
  ⟨by decide, valid_input_processing_total _ (by decide)⟩

/-- A condition none of whose codes is answered collects no contributions. -/
lemma cf_combined_list_nil_of_absent (cf_user_input : List (String × ℚ)) :
    ∀ gl : List String, (∀ g ∈ gl, alookup cf_user_input g = none) →
      cf_combined_list cf_user_input gl = some [] := by
  intro gl
  induction gl with
  | nil => intro _; rfl
  | cons g rest ih =>
    intro habs
    rw [cf_combined_list, habs g (List.mem_cons_self _ _)]
    exact ih (fun x hx => habs x (List.mem_cons_of_mem _ hx))

/-- C7: a condition none of whose relevant symptom codes appears in the
answer set scores exactly `0.0` (aggregation still succeeds) and its
category is "Normal". -/
theorem absent_condition_scores_zero (cf_user_input : List (String × ℚ))
    (pg : String × List String) (hpg : pg ∈ DISEASE_SYMPTOMS)
    (habs : ∀ g ∈ pg.2, alookup cf_user_input g = none) :
    ∃ hasil_cf, calculate_cf_total cf_user_input = some hasil_cf ∧
      alookup hasil_cf pg.1 = some 0 ∧
      (determine_category pg.1 0).1 = "Normal" := by
  obtain ⟨cD, hD⟩ := cf_combined_list_isSome cf_user_input
    ["G04", "G05", "G10", "G13", "G16", "G17", "G21"] (by decide)
  obtain ⟨cK, hK⟩ := cf_combined_list_isSome cf_user_input
    ["G02", "G03", "G07", "G09", "G15", "G19", "G20"] (by decide)
  obtain ⟨cS, hS⟩ := cf_combined_list_isSome cf_user_input
    ["G01", "G06", "G08", "G11", "G12", "G14", "G18"] (by decide)
  simp only [DISEASE_SYMPTOMS, List.mem_cons, List.not_mem_nil, or_false] at hpg
  rcases hpg with rfl | rfl | rfl
  · have hz : cf_combined_list cf_user_input
        ["G04", "G05", "G10", "G13", "G16", "G17", "G21"] = some [] :=
      cf_combined_list_nil_of_absent _ _ habs
    refine ⟨[("Depresi", condition_percentage []),
      ("Kecemasan", condition_percentage cK), ("Stres", condition_percentage cS)],
      ?_, ?_, ?_⟩
    · rw [calculate_cf_total, DISEASE_SYMPTOMS]
      rw [calc_conditions, hz, calc_conditions, hK, calc_conditions, hS,
        calc_conditions]
      rfl
    · rw [condition_percentage, alookup, if_pos rfl]
    · rw [determine_category, if_pos rfl]
      norm_num [kategori_depresi]
  · have hz : cf_combined_list cf_user_input
        ["G02", "G03", "G07", "G09", "G15", "G19", "G20"] = some [] :=
      cf_combined_list_nil_of_absent _ _ habs
    refine ⟨[("Depresi", condition_percentage cD),
      ("Kecemasan", condition_percentage []), ("Stres", condition_percentage cS)],
      ?_, ?_, ?_⟩
    · rw [calculate_cf_total, DISEASE_SYMPTOMS]
      rw [calc_conditions, hD, calc_conditions, hz, calc_conditions, hS,
        calc_conditions]
      rfl
    · rw [condition_percentage, alookup, if_neg (by decide), alookup, if_pos rfl]
    · rw [determine_category, if_neg (by decide), if_pos rfl]
      norm_num [kategori_kecemasan]
  · have hz : cf_combined_list cf_user_input
        ["G01", "G06", "G08", "G11", "G12", "G14", "G18"] = some [] :=
      cf_combined_list_nil_of_absent _ _ habs
    refine ⟨[("Depresi", condition_percentage cD),
      ("Kecemasan", condition_percentage cK), ("Stres", condition_percentage [])],
      ?_, ?_, ?_⟩
    · rw [calculate_cf_total, DISEASE_SYMPTOMS]
      rw [calc_conditions, hD, calc_conditions, hK, calc_conditions, hz,
        calc_conditions]
      rfl
    · rw [condition_percentage, alookup, if_neg (by decide), alookup,
        if_neg (by decide), alookup, if_pos rfl]
    · rw [determine_category, if_neg (by decide), if_neg (by decide), if_pos rfl]
      norm_num [kategori_stres]

/-- Witness for C7: with only `G01` answered, Depresi (whose codes do not
include `G01`) scores `0` and classifies "Normal". -/
theorem absent_condition_scores_zero_witness :
    ∃ hasil_cf, calculate_cf_total [("G01", (8:ℚ)/10)] = some hasil_cf ∧
      alookup hasil_cf "Depresi" = some 0 ∧
      (determine_category "Depresi" 0).1 = "Normal" :=
  absent_condition_scores_zero [("G01", (8:ℚ)/10)]
    ("Depresi", ["G04", "G05", "G10", "G13", "G16", "G17", "G21"])
    (by decide)
    (by
      intro g hg
      fin_cases hg <;> rfl)

/-- C3: for every severity-mapped input (all values from the severity
table), the recorded score of each condition equals the exact combined CF
multiplied by 100 and rounded to 2 decimal places half-up: on this input
domain the rounding the code performs never faces a tie, so it coincides
with half-up rounding, and the exact-rational (`Decimal`) chain preserves
every fractional digit. -/
theorem calculate_cf_total_rounds_half_up (cf_user_input : List (String × ℚ))
    (h : ∀ kv ∈ cf_user_input, kv.2 ∈ SEVERITY_MAPPING.map Prod.snd) :
    calculate_cf_total cf_user_input =
      (calculate_cf_raw cf_user_input).map
        (List.map (fun pr => (pr.1, round_half_up_2 (pr.2 * 100)))) := by
  rw [calculate_cf_total, calculate_cf_raw]
  exact calc_conditions_round cf_user_input h DISEASE_SYMPTOMS (by decide)

/-- Witness for C3 at the input `{G01: 0.8}`. -/
theorem calculate_cf_total_rounds_half_up_witness :
    (∀ kv ∈ [("G01", (8:ℚ)/10)], kv.2 ∈ SEVERITY_MAPPING.map Prod.snd) ∧
    calculate_cf_total [("G01", (8:ℚ)/10)] =
      (calculate_cf_raw [("G01", (8:ℚ)/10)]).map
        (List.map (fun pr => (pr.1, round_half_up_2 (pr.2 * 100)))) := by
  have hmem : ∀ kv ∈ [("G01", (8:ℚ)/10)], kv.2 ∈ SEVERITY_MAPPING.map Prod.snd := by
    intro kv hkv
    rw [List.mem_singleton] at hkv
    rw [hkv, SEVERITY_MAPPING]
    simp
  exact ⟨hmem, calculate_cf_total_rounds_half_up _ hmem⟩

/-- C5: the end-to-end example `{G01: SS, G02: S, G03: AS, G04: TS}` with the
default knowledge base: severity mapping yields 0.8/0.6/0.4/0.2, Kecemasan
collects 0.54 and 0.36 and combines them by the same-sign rule to 0.7056,
and the three conditions score 18.00% "Normal", 70.56% "Ringan" and
72.00% "Ringan". -/
theorem end_to_end_default_example :
    map_severity_values [("G01", "SS"), ("G02", "S"), ("G03", "AS"), ("G04", "TS")] =
      some [("G01", 8/10), ("G02", 6/10), ("G03", 4/10), ("G04", 2/10)] ∧
    cf_combined_list [("G01", 8/10), ("G02", 6/10), ("G03", 4/10), ("G04", 2/10)]
      ["G02", "G03", "G07", "G09", "G15", "G19", "G20"] = some [54/100, 36/100] ∧
    combine (54/100) (36/100) = 7056/10000 ∧
    calculate_cf_total [("G01", 8/10), ("G02", 6/10), ("G03", 4/10), ("G04", 2/10)] =
      some [("Depresi", 18), ("Kecemasan", 7056/100), ("Stres", 72)] ∧
    (determine_category "Depresi" 18).1 = "Normal" ∧
    (determine_category "Kecemasan" (7056/100)).1 = "Ringan" ∧
    (determine_category "Stres" 72).1 = "Ringan" := by
  refine ⟨?_, ?_, ?_, ?_, ?_, ?_, ?_⟩
  · simp [map_severity_values, alookup, SEVERITY_MAPPING]
  · have h : cf_combined_list [("G01", (8:ℚ)/10), ("G02", 6/10), ("G03", 4/10),
        ("G04", 2/10)] ["G02", "G03", "G07", "G09", "G15", "G19", "G20"] =
        some [6/10 * (9/10), 4/10 * (9/10)] := by
      simp [cf_combined_list, alookup, CF_PAKAR, VALID_SYMPTOM_CODES]
    rw [h]
    norm_num
  · rw [combine]
    norm_num
  · have hd : cf_combined_list [("G01", (8:ℚ)/10), ("G02", 6/10), ("G03", 4/10),
        ("G04", 2/10)] ["G04", "G05", "G10", "G13", "G16", "G17", "G21"] =
        some [2/10 * (9/10)] := by
      simp [cf_combined_list, alookup, CF_PAKAR, VALID_SYMPTOM_CODES]
    have hk : cf_combined_list [("G01", (8:ℚ)/10), ("G02", 6/10), ("G03", 4/10),
        ("G04", 2/10)] ["G02", "G03", "G07", "G09", "G15", "G19", "G20"] =
        some [6/10 * (9/10), 4/10 * (9/10)] := by
      simp [cf_combined_list, alookup, CF_PAKAR, VALID_SYMPTOM_CODES]
    have hs : cf_combined_list [("G01", (8:ℚ)/10), ("G02", 6/10), ("G03", 4/10),
        ("G04", 2/10)] ["G01", "G06", "G08", "G11", "G12", "G14", "G18"] =
        some [8/10 * (9/10)] := by
      simp [cf_combined_list, alookup, CF_PAKAR, VALID_SYMPTOM_CODES]
    have e1 : condition_percentage [(2:ℚ)/10 * (9/10)] = 18 := by
      simp only [condition_percentage, List.foldl]
      rw [round2_eq_self _ 1800 (by norm_num)]
      norm_num
    have e2 : condition_percentage [(6:ℚ)/10 * (9/10), 4/10 * (9/10)] = 7056/100 := by
      simp only [condition_percentage, List.foldl]
      rw [round2_eq_self _ 7056 (by norm_num [combine])]
      norm_num [combine]
    have e3 : condition_percentage [(8:ℚ)/10 * (9/10)] = 72 := by
      simp only [condition_percentage, List.foldl]
      rw [round2_eq_self _ 7200 (by norm_num)]
      norm_num
    rw [calculate_cf_total, DISEASE_SYMPTOMS]
    rw [calc_conditions, hd, calc_conditions, hk, calc_conditions, hs,
      calc_conditions]
    dsimp only
    rw [e1, e2, e3]
    rfl
  · rw [determine_category, if_pos rfl]
    norm_num [kategori_depresi]
  · rw [determine_category, if_neg (by decide), if_pos rfl]
    norm_num [kategori_kecemasan]
  · rw [determine_category, if_neg (by decide), if_neg (by decide), if_pos rfl]
    norm_num [kategori_stres]

/-- C2 evaluation at the failing input `{G01: SS}`: `process_screening`
returns entries for exactly the three conditions, each carrying only the
`kategori` and `keterangan` strings — the numeric percentage computed
internally is absent from the output (the own test suite of the
repository expects a `persentase` field here). -/
theorem process_screening_G01_SS_output :
    process_screening [("G01", "SS")] =
      Except.ok [("Depresi", "Normal", "Tidak menunjukkan gangguan signifikan"),
        ("Kecemasan", "Normal", "Tidak menunjukkan gangguan signifikan"),
        ("Stres", "Ringan", "Kelola tugas dan waktu. Break sejenak dari rutinitas harian. Mindfulness sederhana. Batasi penggunaan gadget dan medsos")] := by
  have hval : validate_input [("G01", "SS")] = none := by decide
  have hmap : map_severity_values [("G01", "SS")] = some [("G01", 8/10)] := by
    simp [map_severity_values, alookup, SEVERITY_MAPPING]
  have hs : cf_combined_list [("G01", (8:ℚ)/10)]
      ["G01", "G06", "G08", "G11", "G12", "G14", "G18"] = some [8/10 * (9/10)] := by
    simp [cf_combined_list, alookup, CF_PAKAR, VALID_SYMPTOM_CODES]
  have hd : cf_combined_list [("G01", (8:ℚ)/10)]
      ["G04", "G05", "G10", "G13", "G16", "G17", "G21"] = some [] :=
    cf_combined_list_nil_of_absent _ _ (by intro g hg; fin_cases hg <;> rfl)
  have hk : cf_combined_list [("G01", (8:ℚ)/10)]
      ["G02", "G03", "G07", "G09", "G15", "G19", "G20"] = some [] :=
    cf_combined_list_nil_of_absent _ _ (by intro g hg; fin_cases hg <;> rfl)
  have e3 : condition_percentage [(8:ℚ)/10 * (9/10)] = 72 := by
    simp only [condition_percentage, List.foldl]
    rw [round2_eq_self _ 7200 (by norm_num)]
    norm_num
  have hcalc : calculate_cf_total [("G01", (8:ℚ)/10)] =
      some [("Depresi", 0), ("Kecemasan", 0), ("Stres", 72)] := by
    rw [calculate_cf_total, DISEASE_SYMPTOMS]
    rw [calc_conditions, hd, calc_conditions, hk, calc_conditions, hs,
      calc_conditions]
    dsimp only
    rw [condition_percentage, e3]
    rfl
  rw [process_screening, hval, hmap]
  dsimp only
  rw [hcalc]
  simp only [format_results, List.map_cons, List.map_nil]
  rw [determine_category, if_pos rfl]
  rw [determine_category, if_neg (by decide), if_pos rfl]
  rw [determine_category, if_neg (by decide), if_neg (by decide), if_pos rfl]
  norm_num [kategori_depresi, kategori_kecemasan, kategori_stres]

end Screening
